import Mathlib

/-!
Verification development for the ExcelTo3D repository (`src/data_processor.py`).

The embedding models a pandas `DataFrame` as a list of named, kind-tagged
columns whose cells are `Option RawVal` (with `none` standing for a missing
value: `NaN` in a float column, `NaT` in a datetime/timedelta column, `NaN`
in an object column).  Machine floats are modelled exactly with `Rat`;
`NaN` produced by normalization is the explicit sentinel `NumVal.nan`.
Python code that raises (`KeyError` on a missing column label,
`IndexError` on `iloc` over an empty frame) is modelled by `Option`-valued
functions returning `none`.
-/

namespace ExcelTo3D

/-- The five column kinds of the data model (pandas dtypes:
float/int, bool, datetime64, timedelta64, object). -/
inductive ColKind where
  | numeric
  | boolean
  | datetime
  | duration
  | text
deriving DecidableEq, Repr

/-- A raw cell value.  Datetimes and durations are stored as integer
nanoseconds, exactly as pandas stores `datetime64[ns]` / `timedelta64[ns]`. -/
inductive RawVal where
  | num (x : Rat)
  | bool (b : Bool)
  | dt (ns : Int)
  | dur (ns : Int)
  | str (s : String)
deriving DecidableEq, Repr

/-- A named column: a kind tag plus cells; `none` is a missing value. -/
structure Column where
  name : String
  kind : ColKind
  cells : List (Option RawVal)
deriving DecidableEq, Repr

/-- A data frame: an ordered list of columns. -/
structure DataFrame where
  cols : List Column
deriving DecidableEq, Repr

/-- Column lookup by label; models `df[name]` / `name in df.columns`. -/
def DataFrame.lookup (df : DataFrame) (name : String) : Option Column :=
  df.cols.find? (fun c => c.name == name)

/-- Row count of the frame (`len(df)`): length of the first column. -/
def DataFrame.nrows (df : DataFrame) : Nat :=
  match df.cols with
  | [] => 0
  | c :: _ => c.cells.length

/-- All columns have the frame's row count (pandas invariant). -/
def DataFrame.Uniform (df : DataFrame) : Prop :=
  ∀ c ∈ df.cols, c.cells.length = df.nrows

instance (df : DataFrame) : Decidable df.Uniform := by
  unfold DataFrame.Uniform; infer_instance

/-- `pd.api.types.is_numeric_dtype` (true for float/int and also for bool). -/
def is_numeric_dtype : ColKind → Bool
  | .numeric => true
  | .boolean => true
  | _ => false

/-- `pd.api.types.is_bool_dtype`. -/
def is_bool_dtype : ColKind → Bool
  | .boolean => true
  | _ => false

/-- `pd.api.types.is_datetime64_any_dtype`. -/
def is_datetime64_any_dtype : ColKind → Bool
  | .datetime => true
  | _ => false

/-- `pd.api.types.is_timedelta64_dtype`. -/
def is_timedelta64_dtype : ColKind → Bool
  | .duration => true
  | _ => false

/-- A normalized value: a float that is either a number or the NaN sentinel. -/
inductive NumVal where
  | val (x : Rat)
  | nan
deriving DecidableEq, Repr

/-- `timedelta.dt.total_seconds()`: nanoseconds over 10^9 (fractional
seconds allowed); `NaT` gives `NaN`. -/
def dur_total_seconds : Option RawVal → NumVal
  | some (.dur ns) => .val ((ns : Rat) / ((10:Rat) ^ 9))
  | _ => .nan

/-- The datetime branch of `change_data_types_to_numeric`:
`view('int64')` nanoseconds, `NaT` replaced by `NaN`, then floor-divided
by 10^9 (`//` is floor division, `Int.fdiv`). -/
def dt_epoch_seconds : Option RawVal → NumVal
  | some (.dt ns) => .val ((Int.fdiv ns ((10:Int) ^ 9) : Int) : Rat)
  | _ => .nan

/-- `fillna('Unknown')` on an object column, viewed elementwise as the
string content of each cell (object columns in this pipeline hold strings
or missing values). -/
def fillna_unknown_elem : Option RawVal → String
  | some (.str s) => s
  | _ => "Unknown"

/-- `color_data.fillna("Unknown")` / the object-column fill of the
normalizer, as a list of strings. -/
def fillna_unknown_str (cells : List (Option RawVal)) : List String :=
  cells.map fillna_unknown_elem

/-- Code-point lexicographic `≤` on character lists (Python compares
strings by code points). -/
def charListLe : List Char → List Char → Bool
  | [], _ => true
  | _ :: _, [] => false
  | c :: cs, d :: ds =>
    if c.toNat < d.toNat then true
    else if d.toNat < c.toNat then false
    else charListLe cs ds

/-- Code-point lexicographic `≤` on strings. -/
def strLe (a b : String) : Bool := charListLe a.data b.data

/-- Insert a string into a (sorted) list, keeping order. -/
def insertSorted (s : String) : List String → List String
  | [] => [s]
  | t :: ts => if strLe s t then s :: t :: ts else t :: insertSorted s ts

/-- Lexicographic insertion sort on strings (Python sorts categories by
code-point order). -/
def sortStrings : List String → List String
  | [] => []
  | s :: ss => insertSorted s (sortStrings ss)

/-- `pd.Categorical(xs).categories`: the distinct values, sorted. -/
def cat_categories (xs : List String) : List String :=
  sortStrings xs.dedup

/-- `pd.Categorical(xs).codes.astype(float)`: each value mapped to the
index of its category in the sorted category list. -/
def cat_codes (xs : List String) : List NumVal :=
  let cats := cat_categories xs
  xs.map (fun s => .val ((cats.indexOf s : Nat) : Rat))

/-- The final branch of the normalizer: `astype(float).fillna(0.0)` on a
numeric or boolean column (`True ↦ 1.0`, `False ↦ 0.0`, missing ↦ `0.0`). -/
def numeric_fill0 : Option RawVal → NumVal
  | some (.num x) => .val x
  | some (.bool b) => .val (if b then 1 else 0)
  | some _ => .val 0
  | none => .val 0

/-- Result of `change_data_types_to_numeric`: either a normalized numeric
series, or — on the missing-column fallback — the raw first column
(`df.iloc[:, 0]`), returned unchanged. -/
inductive NormResult where
  | series (xs : List NumVal)
  | raw (cs : List (Option RawVal))
deriving DecidableEq, Repr

/-- `change_data_types_to_numeric(df, col_name)` from
`src/data_processor.py`.  Branch order follows the source: missing-label
fallback to the first column, then timedelta, datetime, object, and the
numeric default.  `none` models the `IndexError` that `df.iloc[:, 0]`
raises on a frame with no columns. -/
def change_data_types_to_numeric (df : DataFrame) (col_name : String) :
    Option NormResult :=
  match df.lookup col_name with
  | none => (df.cols.head?).map (fun c0 => .raw c0.cells)
  | some c =>
    if is_timedelta64_dtype c.kind then
      some (.series (c.cells.map dur_total_seconds))
    else if is_datetime64_any_dtype c.kind then
      some (.series (c.cells.map dt_epoch_seconds))
    else if c.kind = .text then
      some (.series (cat_codes (fillna_unknown_str c.cells)))
    else
      some (.series (c.cells.map numeric_fill0))

/-! ## The ordinal classification pass (`change_ordinal_cols_by_terminal`)

The terminal prompt is modelled as an explicit per-column decision mapping;
`pd.to_numeric(errors='coerce')`, an external library parser, is
abstracted as a `String → Option Rat` parameter. -/

/-- The operator's per-column answer at the terminal. -/
inductive OrdinalChoice where
  | keepText
  | toNumeric
deriving DecidableEq, Repr

/-- Python `str(...)` applied elementwise by `astype(str)`.  The essential
cases for this pipeline: a string stays itself and a missing value
(`NaN`) is stringified to `"nan"`. -/
def py_str : Option RawVal → String
  | some (.str s) => s
  | some (.num x) => toString x
  | some (.bool b) => if b then "True" else "False"
  | some (.dt ns) => toString ns
  | some (.dur ns) => toString ns
  | none => "nan"

/-- `astype(str)` on a column: every cell becomes a present string; in
particular a missing cell becomes the present string `"nan"`. -/
def astype_str_cells (cells : List (Option RawVal)) : List (Option RawVal) :=
  cells.map (fun c => some (.str (py_str c)))

/-- `fillna('Unknown')` at the cell level: only missing cells change. -/
def fillna_unknown_cells (cells : List (Option RawVal)) : List (Option RawVal) :=
  cells.map (fun c => match c with
    | none => some (.str "Unknown")
    | v => v)

/-- `pd.to_numeric(errors='coerce').fillna(0)`: parse where possible,
unparsable or missing become 0. -/
def to_numeric_coerce (parseNum : String → Option Rat)
    (cells : List (Option RawVal)) : List (Option RawVal) :=
  cells.map (fun c => match c with
    | some (.str s) => some (.num ((parseNum s).getD 0))
    | some (.num x) => some (.num x)
    | some v => some v
    | none => some (.num 0))

/-- `change_ordinal_cols_by_terminal(df)` from `src/data_processor.py`.
For each object/categorical column the operator's choice is applied:
`'t'` runs `astype(str).fillna('Unknown')`, `'n'` runs
`pd.to_numeric(errors='coerce').fillna(0)` (the kind becomes numeric).
Columns that are already numeric get `fillna(0)`; a pandas bool column
cannot hold a missing value, so `fillna` is the identity there. -/
def change_ordinal_cols_by_terminal (df : DataFrame)
    (choice : String → OrdinalChoice) (parseNum : String → Option Rat) :
    DataFrame :=
  ⟨df.cols.map (fun c =>
    if c.kind = .text then
      match choice c.name with
      | .keepText => { c with cells := fillna_unknown_cells (astype_str_cells c.cells) }
      | .toNumeric => { c with kind := .numeric, cells := to_numeric_coerce parseNum c.cells }
    else if c.kind = .numeric then
      { c with cells := c.cells.map (fun v => match v with
          | none => some (.num 0)
          | w => w) }
    else c)⟩

/-! ## The figure builder (`build_3d_figure`) -/

/-- What the hover template's `%{customdata[1]}` slot displays for a
point: the raw cell placed in `customdata` (continuous mode) or the
category string (discrete mode). -/
inductive HoverVal where
  | cell (v : Option RawVal)
  | str (s : String)
deriving DecidableEq, Repr

/-- A trace's marker color: a continuous colorscale with a colorbar
title and the per-point color values, or one fixed hex color. -/
inductive ColorSpec where
  | continuous (colorscale : String) (colorbarTitle : String)
      (colorVals : List (Option RawVal))
  | discrete (hex : String)
deriving DecidableEq, Repr

/-- One `go.Scatter3d` trace. `rows` records which frame rows the points
come from; `custom` is the per-point `customdata` (row index, color
display value). -/
structure Trace where
  x : List (Option RawVal)
  y : List (Option RawVal)
  z : List (Option RawVal)
  rows : List Nat
  color : ColorSpec
  name : String
  custom : List (Nat × HoverVal)
  hovertemplate : String
  showlegend : Option Bool
deriving DecidableEq, Repr

/-- The produced figure: traces plus layout metadata. -/
structure Figure where
  traces : List Trace
  legendTitle : Option String
  title : String
  xTitle : String
  yTitle : String
  zTitle : String
deriving DecidableEq, Repr, Inhabited

/-- `px.colors.qualitative.Plotly`, the 10-color palette used by the
discrete branch (also written out literally as its fallback in the
source). -/
def palette : List String :=
  ["#636EFA", "#EF553B", "#00CC96", "#AB63FA", "#FFA15A",
   "#19D3F3", "#FF6692", "#B6E880", "#FF97FF", "#FECB52"]

/-- The hover template string built in both branches of the source. -/
def hover_template (x_col y_col z_col color_col : String) : String :=
  "Row %{customdata[0]}" ++
  "<br>" ++ x_col ++ ": %{x}" ++
  "<br>" ++ y_col ++ ": %{y}" ++
  "<br>" ++ z_col ++ ": %{z}" ++
  "<br>" ++ color_col ++ ": %{customdata[1]}" ++
  "<extra></extra>"

/-- One discrete-mode trace: `mask = (cats == cat)` selects the rows
whose (Unknown-filled) color value is `cat`; coordinates are the masked
column data, the marker color is `color_map[cat] = palette[k % len]`,
the trace name is the category and `customdata` pairs each selected row
index with the category string. -/
def mk_discrete_trace (xs ys zs : List (Option RawVal)) (filled : List String)
    (row_idx : List Nat) (tmpl : String) (cat : String) (k : Nat) : Trace :=
  let rows := row_idx.filter (fun i => decide (filled[i]? = some cat))
  { x := rows.filterMap (fun i => xs[i]?)
    y := rows.filterMap (fun i => ys[i]?)
    z := rows.filterMap (fun i => zs[i]?)
    rows := rows
    color := .discrete (palette.getD (k % palette.length) "")
    name := cat
    custom := rows.map (fun i => (i, HoverVal.str cat))
    hovertemplate := tmpl
    showlegend := some true }

/-- `for cat in unique_cats: fig.add_trace(...)` with the running index
`k` of `enumerate(unique_cats)` used for the palette assignment. -/
def discrete_traces (xs ys zs : List (Option RawVal)) (filled : List String)
    (row_idx : List Nat) (tmpl : String) :
    List String → Nat → List Trace
  | [], _ => []
  | cat :: cats, k =>
    mk_discrete_trace xs ys zs filled row_idx tmpl cat k ::
      discrete_traces xs ys zs filled row_idx tmpl cats (k + 1)

/-- The body of `build_3d_figure` once the four columns are in hand. -/
def build_figure_from (n : Nat) (xc yc zc cc : Column)
    (x_col y_col z_col color_col : String) : Figure :=
  let is_numeric_color :=
    is_numeric_dtype cc.kind || is_bool_dtype cc.kind ||
    is_datetime64_any_dtype cc.kind || is_timedelta64_dtype cc.kind
  if is_numeric_color then
    let row_idx := List.range n
    { traces := [{
        x := xc.cells, y := yc.cells, z := zc.cells
        rows := row_idx
        color := .continuous "Viridis" color_col cc.cells
        name := "Data Points"
        custom := row_idx.zip (cc.cells.map HoverVal.cell)
        hovertemplate := hover_template x_col y_col z_col color_col
        showlegend := none }]
      legendTitle := none
      title := "3D Scatter Plot of Fault Groups - Interactive"
      xTitle := x_col, yTitle := y_col, zTitle := z_col }
  else
    let filled := fillna_unknown_str cc.cells
    let unique_cats := cat_categories filled
    let row_idx := List.range n
    { traces := discrete_traces xc.cells yc.cells zc.cells filled row_idx
        (hover_template x_col y_col z_col color_col) unique_cats 0
      legendTitle := some color_col
      title := "3D Scatter Plot of Fault Groups - Interactive"
      xTitle := x_col, yTitle := y_col, zTitle := z_col }

/-- `build_3d_figure(df, x_col, y_col, z_col, color_col)` from
`src/data_processor.py`.  The source reads `df[x_col]`, `df[y_col]`,
`df[z_col]`, `df[color_col]` directly (no normalizer call), so a missing
column label raises a `KeyError`, modelled by `none`. -/
def build_3d_figure (df : DataFrame)
    (x_col y_col z_col color_col : String) : Option Figure :=
  match df.lookup x_col, df.lookup y_col, df.lookup z_col,
        df.lookup color_col with
  | some xc, some yc, some zc, some cc =>
    some (build_figure_from df.nrows xc yc zc cc x_col y_col z_col color_col)
  | _, _, _, _ => none

/-! ## A definition following the spec's words, for comparison

The spec's discrete-path rule assigns palette colors "by first-seen
category order".  The source instead assigns them by the sorted order of
`pd.Categorical(...).categories`; the definitions below state the spec's
rule so the two can be compared on a concrete input. -/

/-- Modelled from the spec: the distinct categories in first-seen order
("assignment order = first-seen order"). -/
def first_seen_cats : List String → List String
  | [] => []
  | a :: l => a :: (first_seen_cats l).filter (fun b => decide (b ≠ a))

/-- Modelled from the spec: "a fixed-palette color assigned by first-seen
category order cycling through a palette of at least 10 distinct
colors". -/
def first_seen_color (xs : List String) (cat : String) : Option String :=
  ((first_seen_cats xs).findIdx? (fun b => b == cat)).map
    (fun i => palette.getD (i % palette.length) "")

/-! ## Concrete datasets for witnesses and counterexamples -/

/-- A one-column frame, used to exercise the missing-column fallback. -/
def dfFallback : DataFrame := ⟨[⟨"a", .numeric, [some (.num 0)]⟩]⟩

/-- A frame with a datetime column containing one missing entry. -/
def dfDatetime : DataFrame :=
  ⟨[⟨"t", .datetime, [some (.dt (3 * 10 ^ 9)), none]⟩]⟩

/-- A frame whose text column lists "B" before "A" (first-seen order
differs from sorted order). -/
def dfBA : DataFrame :=
  ⟨[⟨"v", .numeric, [some (.num 1), some (.num 2)]⟩,
    ⟨"c", .text, [some (.str "B"), some (.str "A")]⟩]⟩

/-- A frame whose text column holds the literal string "Unknown" in one
row and a missing value in the other. -/
def dfUnknown : DataFrame :=
  ⟨[⟨"v", .numeric, [some (.num 1), some (.num 2)]⟩,
    ⟨"c", .text, [some (.str "Unknown"), none]⟩]⟩

/-- A text column with one missing entry, for the ordinal pass. -/
def dfOrdinal : DataFrame := ⟨[⟨"c", .text, [some (.str "A"), none]⟩]⟩

/-- An empty frame: two columns, zero rows. -/
def dfEmpty : DataFrame :=
  ⟨[⟨"v", .numeric, []⟩, ⟨"c", .text, []⟩]⟩

/-- A small mixed frame: numeric column and a text color column with a
repeated category and a missing value. -/
def dfMixed : DataFrame :=
  ⟨[⟨"v", .numeric, [some (.num 1), some (.num 2), some (.num 3)]⟩,
    ⟨"c", .text, [some (.str "A"), none, some (.str "A")]⟩]⟩

/-- The figure a successful build produces, extracted for use in
closed witness statements. -/
def figOf (df : DataFrame) (x_col y_col z_col color_col : String) : Figure :=
  (build_3d_figure df x_col y_col z_col color_col).getD default

/-! # Helper lemmas -/

theorem insertSorted_perm (s : String) (l : List String) :
    List.Perm (insertSorted s l) (s :: l) := by
  induction l with
  | nil => simp [insertSorted]
  | cons t ts ih =>
    simp only [insertSorted]
    split
    · exact List.Perm.refl _
    · exact (ih.cons t).trans (List.Perm.swap s t ts)

theorem sortStrings_perm (l : List String) : List.Perm (sortStrings l) l := by
  induction l with
  | nil => simp [sortStrings]
  | cons s ss ih => exact (insertSorted_perm s (sortStrings ss)).trans (ih.cons s)

theorem mem_cat_categories {a : String} {xs : List String} :
    a ∈ cat_categories xs ↔ a ∈ xs := by
  unfold cat_categories
  rw [(sortStrings_perm _).mem_iff, List.mem_dedup]

theorem cat_categories_nodup (xs : List String) : (cat_categories xs).Nodup :=
  ((sortStrings_perm _).nodup_iff).mpr (List.nodup_dedup xs)

theorem sum_map_add_nat {α : Type} (l : List α) (f g : α → Nat) :
    (l.map (fun a => f a + g a)).sum = (l.map f).sum + (l.map g).sum := by
  induction l with
  | nil => simp
  | cons b m ih => simp [ih]; omega

theorem sum_map_ite_count (b : String) (l : List String) :
    (l.map (fun a => if b == a then 1 else 0)).sum = l.count b := by
  induction l with
  | nil => simp
  | cons c m ih =>
    simp only [List.map_cons, List.sum_cons, List.count_cons, ih]
    by_cases h : b = c
    · subst h; simp [Nat.add_comm]
    · have h1 : (b == c) = false := by simpa using h
      have h2 : (c == b) = false := by simpa using Ne.symm h
      simp [h1, h2]

theorem sum_dedup_count (l : List String) :
    ((l.dedup).map (fun a => l.count a)).sum = l.length := by
  induction l with
  | nil => simp
  | cons b m ih =>
    by_cases hb : b ∈ m
    · rw [List.dedup_cons_of_mem hb]
      simp only [List.count_cons]
      rw [sum_map_add_nat, ih, sum_map_ite_count, List.count_dedup]
      simp [hb]
    · rw [List.dedup_cons_of_not_mem hb]
      simp only [List.map_cons, List.sum_cons, List.count_cons]
      rw [sum_map_add_nat, ih, sum_map_ite_count, List.count_dedup]
      have h0 : m.count b = 0 := List.count_eq_zero.mpr hb
      simp [hb, h0]
      omega

theorem filter_map_succ (r : List Nat) (p : Nat → Bool) :
    (r.map Nat.succ).filter p = (r.filter (fun i => p (i + 1))).map Nat.succ := by
  induction r with
  | nil => rfl
  | cons a t ih =>
    simp only [List.map_cons, List.filter_cons, Nat.succ_eq_add_one]
    by_cases h : p (a + 1)
    · simp [h, ih]
    · simp [h, ih]

theorem length_filter_range (l : List String) (a : String) :
    ((List.range l.length).filter (fun i => decide (l[i]? = some a))).length
      = l.count a := by
  induction l with
  | nil => simp
  | cons b m ih =>
    rw [List.length_cons, List.range_succ_eq_map, List.filter_cons]
    rw [filter_map_succ]
    simp only [List.getElem?_cons_succ, List.getElem?_cons_zero,
      List.length_map, List.count_cons]
    by_cases h : b = a
    · simp [h, ih]
    · simp [h, Ne.symm h, ih]

theorem mem_zip_range'_aux {α : Type} :
    ∀ (n : Nat) (l : List α) (s : Nat) (q : Nat × α),
      q ∈ (List.range' s n).zip l →
        ∃ j, q.1 = s + j ∧ l[j]? = some q.2 := by
  intro n
  induction n with
  | zero => intro l s q h; simp [List.range'] at h
  | succ n ih =>
    intro l s q h
    cases l with
    | nil => simp at h
    | cons b m =>
      rw [List.range'_succ, List.zip_cons_cons] at h
      rcases List.mem_cons.mp h with h0 | h1
      · refine ⟨0, ?_, ?_⟩
        · simp [h0]
        · rw [h0]; simp
      · obtain ⟨j, hj1, hj2⟩ := ih m (s + 1) q h1
        exact ⟨j + 1, by omega, by simpa using hj2⟩

theorem mem_zip_range {α : Type} {l : List α} {n : Nat} {q : Nat × α}
    (h : q ∈ (List.range n).zip l) : l[q.1]? = some q.2 := by
  rw [List.range_eq_range'] at h
  obtain ⟨j, hj1, hj2⟩ := mem_zip_range'_aux n l 0 q h
  rw [hj1, Nat.zero_add]
  exact hj2

theorem lookup_mem {df : DataFrame} {name : String} {c : Column}
    (h : df.lookup name = some c) : c ∈ df.cols :=
  List.mem_of_find?_eq_some h

theorem lookup_cols_ne_nil {df : DataFrame} {name : String} {c : Column}
    (h : df.lookup name = some c) : df.cols ≠ [] := by
  intro hnil
  have := lookup_mem h
  rw [hnil] at this
  simp at this

theorem build_3d_figure_eq {df : DataFrame}
    {x_col y_col z_col color_col : String} {xc yc zc cc : Column}
    (h1 : df.lookup x_col = some xc) (h2 : df.lookup y_col = some yc)
    (h3 : df.lookup z_col = some zc) (h4 : df.lookup color_col = some cc) :
    build_3d_figure df x_col y_col z_col color_col =
      some (build_figure_from df.nrows xc yc zc cc
        x_col y_col z_col color_col) := by
  unfold build_3d_figure
  rw [h1, h2, h3, h4]

theorem discrete_traces_map_name (xs ys zs : List (Option RawVal))
    (filled : List String) (ri : List Nat) (tm : String) :
    ∀ (cats : List String) (k : Nat),
      (discrete_traces xs ys zs filled ri tm cats k).map Trace.name = cats := by
  intro cats
  induction cats with
  | nil => intro k; rfl
  | cons cat cats ih =>
    intro k
    simp [discrete_traces, mk_discrete_trace, ih]

theorem mem_discrete_traces {xs ys zs : List (Option RawVal)}
    {filled : List String} {ri : List Nat} {tm : String} :
    ∀ {cats : List String} {k : Nat} {t : Trace},
      t ∈ discrete_traces xs ys zs filled ri tm cats k ↔
        ∃ j, j < cats.length ∧
          t = mk_discrete_trace xs ys zs filled ri tm (cats.getD j "") (k + j) := by
  intro cats
  induction cats with
  | nil => intro k t; simp [discrete_traces]
  | cons cat cats ih =>
    intro k t
    simp only [discrete_traces, List.mem_cons]
    constructor
    · rintro (h0 | h1)
      · exact ⟨0, by simp, by simpa using h0⟩
      · obtain ⟨j, hj, ht⟩ := ih.mp h1
        refine ⟨j + 1, by simpa using hj, ?_⟩
        have hk : k + (j + 1) = k + 1 + j := by omega
        rw [List.getD_cons_succ, hk]
        exact ht
    · rintro ⟨j, hj, ht⟩
      cases j with
      | zero =>
        left
        simpa using ht
      | succ j =>
        right
        apply ih.mpr
        have hj' : j < cats.length := by
          simp only [List.length_cons] at hj; omega
        refine ⟨j, hj', ?_⟩
        rw [List.getD_cons_succ] at ht
        have hk : k + (j + 1) = k + 1 + j := by omega
        rw [hk] at ht
        exact ht

theorem discrete_traces_sum_rows (xs ys zs : List (Option RawVal))
    (filled : List String) (ri : List Nat) (tm : String) :
    ∀ (cats : List String) (k : Nat),
      ((discrete_traces xs ys zs filled ri tm cats k).map
          (fun t => t.rows.length)).sum
        = (cats.map (fun cat =>
            (ri.filter (fun i => decide (filled[i]? = some cat))).length)).sum := by
  intro cats
  induction cats with
  | nil => intro k; rfl
  | cons cat cats ih =>
    intro k
    simp [discrete_traces, mk_discrete_trace, ih]

theorem discrete_traces_colors (xs ys zs : List (Option RawVal))
    (filled : List String) (ri : List Nat) (tm : String)
    (cats : List String) (k : Nat) :
    ∀ t ∈ discrete_traces xs ys zs filled ri tm cats k,
      (∃ h, t.color = ColorSpec.discrete h) ∧ t.showlegend = some true := by
  intro t ht
  obtain ⟨j, hj, rfl⟩ := mem_discrete_traces.mp ht
  exact ⟨⟨_, rfl⟩, rfl⟩

theorem build_traces_text (n : Nat) (xc yc zc : Column) (cname : String)
    (ccells : List (Option RawVal)) (x_col y_col z_col color_col : String) :
    (build_figure_from n xc yc zc ⟨cname, .text, ccells⟩
        x_col y_col z_col color_col).traces =
      discrete_traces xc.cells yc.cells zc.cells (fillna_unknown_str ccells)
        (List.range n) (hover_template x_col y_col z_col color_col)
        (cat_categories (fillna_unknown_str ccells)) 0 := rfl

theorem build_legend_text (n : Nat) (xc yc zc : Column) (cname : String)
    (ccells : List (Option RawVal)) (x_col y_col z_col color_col : String) :
    (build_figure_from n xc yc zc ⟨cname, .text, ccells⟩
        x_col y_col z_col color_col).legendTitle = some color_col := rfl

theorem discrete_traces_getElem? (xs ys zs : List (Option RawVal))
    (filled : List String) (ri : List Nat) (tm : String) :
    ∀ (cats : List String) (k j : Nat), j < cats.length →
      (discrete_traces xs ys zs filled ri tm cats k)[j]? =
        some (mk_discrete_trace xs ys zs filled ri tm
          (cats.getD j "") (k + j)) := by
  intro cats
  induction cats with
  | nil => intro k j hj; simp at hj
  | cons cat cats ih =>
    intro k j hj
    simp only [discrete_traces]
    cases j with
    | zero => simp
    | succ j =>
      have hj' : j < cats.length := by
        simp only [List.length_cons] at hj; omega
      rw [List.getElem?_cons_succ, ih (k + 1) j hj', List.getD_cons_succ]
      have hkj : k + 1 + j = k + (j + 1) := by omega
      rw [hkj]

theorem build_figure_from_cont (n : Nat) (xc yc zc : Column)
    (cname : String) (k : ColKind) (ccells : List (Option RawVal))
    (x_col y_col z_col color_col : String) (hk : k ≠ .text) :
    build_figure_from n xc yc zc ⟨cname, k, ccells⟩
        x_col y_col z_col color_col =
      { traces := [{
          x := xc.cells, y := yc.cells, z := zc.cells
          rows := List.range n
          color := .continuous "Viridis" color_col ccells
          name := "Data Points"
          custom := (List.range n).zip (ccells.map HoverVal.cell)
          hovertemplate := hover_template x_col y_col z_col color_col
          showlegend := none }]
        legendTitle := none
        title := "3D Scatter Plot of Fault Groups - Interactive"
        xTitle := x_col, yTitle := y_col, zTitle := z_col } := by
  cases k <;> first | rfl | exact absurd rfl hk

theorem numeric_fill0_ne_nan (v : Option RawVal) :
    numeric_fill0 v ≠ NumVal.nan := by
  match v with
  | none => exact fun h => NumVal.noConfusion h
  | some (.num x) => exact fun h => NumVal.noConfusion h
  | some (.bool b) => exact fun h => NumVal.noConfusion h
  | some (.dt t) => exact fun h => NumVal.noConfusion h
  | some (.dur t) => exact fun h => NumVal.noConfusion h
  | some (.str s) => exact fun h => NumVal.noConfusion h

theorem change_eq_of_text {df : DataFrame} {name : String} {c : Column}
    (h : df.lookup name = some c) (hk : c.kind = .text) :
    change_data_types_to_numeric df name =
      some (.series (cat_codes (fillna_unknown_str c.cells))) := by
  unfold change_data_types_to_numeric
  rw [h]
  obtain ⟨cn, ck, cs⟩ := c
  cases hk
  simp [is_timedelta64_dtype, is_datetime64_any_dtype]

theorem change_eq_of_datetime {df : DataFrame} {name : String} {c : Column}
    (h : df.lookup name = some c) (hk : c.kind = .datetime) :
    change_data_types_to_numeric df name =
      some (.series (c.cells.map dt_epoch_seconds)) := by
  unfold change_data_types_to_numeric
  rw [h]
  obtain ⟨cn, ck, cs⟩ := c
  cases hk
  simp [is_timedelta64_dtype, is_datetime64_any_dtype]

theorem change_eq_of_duration {df : DataFrame} {name : String} {c : Column}
    (h : df.lookup name = some c) (hk : c.kind = .duration) :
    change_data_types_to_numeric df name =
      some (.series (c.cells.map dur_total_seconds)) := by
  unfold change_data_types_to_numeric
  rw [h]
  obtain ⟨cn, ck, cs⟩ := c
  cases hk
  simp [is_timedelta64_dtype]

theorem change_eq_of_numeric_or_bool {df : DataFrame} {name : String}
    {c : Column} (h : df.lookup name = some c)
    (hk : c.kind = .numeric ∨ c.kind = .boolean) :
    change_data_types_to_numeric df name =
      some (.series (c.cells.map numeric_fill0)) := by
  unfold change_data_types_to_numeric
  rw [h]
  obtain ⟨cn, ck, cs⟩ := c
  rcases hk with hk | hk
  · cases hk
    simp [is_timedelta64_dtype, is_datetime64_any_dtype]
  · cases hk
    simp [is_timedelta64_dtype, is_datetime64_any_dtype]

/-! # Claim theorems -/

/-- C1: for every dataset and every color column that exists in it, the
Figure Builder's choice of color encoding is a pure function of the color
column's kind — it selects continuous mode (a single trace with the
Viridis colorscale and a colorbar titled by the color column) exactly
when the kind is numeric, boolean, datetime or duration, and discrete
mode (one trace per category, each a legend entry) exactly when the
column is text/categorical. -/
theorem C1_color_mode_is_pure_function_of_kind
    {df : DataFrame} {x_col y_col z_col color_col : String}
    {xc yc zc cc : Column} {fig : Figure}
    (h1 : df.lookup x_col = some xc) (h2 : df.lookup y_col = some yc)
    (h3 : df.lookup z_col = some zc) (h4 : df.lookup color_col = some cc)
    (hb : build_3d_figure df x_col y_col z_col color_col = some fig) :
    ((cc.kind = .numeric ∨ cc.kind = .boolean ∨ cc.kind = .datetime ∨
        cc.kind = .duration) ↔
      fig.traces.map Trace.color =
        [ColorSpec.continuous "Viridis" color_col cc.cells]) ∧
    (cc.kind = .text ↔
      (fig.traces.map Trace.name =
          cat_categories (fillna_unknown_str cc.cells) ∧
        ∀ t ∈ fig.traces, (∃ h, t.color = ColorSpec.discrete h) ∧
          t.showlegend = some true)) := by
  rw [build_3d_figure_eq h1 h2 h3 h4] at hb
  have hfig := Option.some.inj hb
  subst hfig
  obtain ⟨cname, ckind, ccells⟩ := cc
  cases ckind with
  | text =>
    rw [build_traces_text]
    constructor
    · constructor
      · rintro (h | h | h | h) <;> exact ColKind.noConfusion h
      · intro h
        exfalso
        have hmem : ColorSpec.continuous "Viridis" color_col ccells ∈
            (discrete_traces xc.cells yc.cells zc.cells
              (fillna_unknown_str ccells) (List.range df.nrows)
              (hover_template x_col y_col z_col color_col)
              (cat_categories (fillna_unknown_str ccells)) 0).map
                Trace.color := by
          rw [h]
          exact List.mem_singleton_self _
        obtain ⟨t, ht, hc⟩ := List.mem_map.mp hmem
        obtain ⟨⟨hx, hcol⟩, _⟩ :=
          discrete_traces_colors _ _ _ _ _ _ _ _ t ht
        rw [hcol] at hc
        exact ColorSpec.noConfusion hc
    · constructor
      · intro _
        constructor
        · exact discrete_traces_map_name _ _ _ _ _ _ _ _
        · intro t ht
          exact discrete_traces_colors _ _ _ _ _ _ _ _ t ht
      · intro _
        rfl
  | numeric =>
    simp [build_figure_from, is_numeric_dtype, is_bool_dtype,
      is_datetime64_any_dtype, is_timedelta64_dtype]
  | boolean =>
    simp [build_figure_from, is_numeric_dtype, is_bool_dtype,
      is_datetime64_any_dtype, is_timedelta64_dtype]
  | datetime =>
    simp [build_figure_from, is_numeric_dtype, is_bool_dtype,
      is_datetime64_any_dtype, is_timedelta64_dtype]
  | duration =>
    simp [build_figure_from, is_numeric_dtype, is_bool_dtype,
      is_datetime64_any_dtype, is_timedelta64_dtype]

/-- Witness for C1 at a concrete frame whose color column is text. -/
theorem C1_color_mode_is_pure_function_of_kind_witness :
    dfBA.lookup "v" = some ⟨"v", .numeric, [some (.num 1), some (.num 2)]⟩ ∧
    dfBA.lookup "c" = some ⟨"c", .text, [some (.str "B"), some (.str "A")]⟩ ∧
    build_3d_figure dfBA "v" "v" "v" "c" = some (figOf dfBA "v" "v" "v" "c") ∧
    (((ColKind.text = .numeric ∨ ColKind.text = .boolean ∨
        ColKind.text = .datetime ∨ ColKind.text = .duration) ↔
      (figOf dfBA "v" "v" "v" "c").traces.map Trace.color =
        [ColorSpec.continuous "Viridis" "c"
          [some (.str "B"), some (.str "A")]]) ∧
     (ColKind.text = .text ↔
      ((figOf dfBA "v" "v" "v" "c").traces.map Trace.name =
          cat_categories (fillna_unknown_str
            [some (.str "B"), some (.str "A")]) ∧
        ∀ t ∈ (figOf dfBA "v" "v" "v" "c").traces,
          (∃ h, t.color = ColorSpec.discrete h) ∧
          t.showlegend = some true))) :=
  ⟨by decide, by decide, by decide,
    @C1_color_mode_is_pure_function_of_kind dfBA "v" "v" "v" "c"
      ⟨"v", .numeric, [some (.num 1), some (.num 2)]⟩
      ⟨"v", .numeric, [some (.num 1), some (.num 2)]⟩
      ⟨"v", .numeric, [some (.num 1), some (.num 2)]⟩
      ⟨"c", .text, [some (.str "B"), some (.str "A")]⟩
      (figOf dfBA "v" "v" "v" "c")
      (by decide) (by decide) (by decide) (by decide) (by decide)⟩

/-- C2 counterexample: on a one-column frame, building a figure with the
missing column name "b" does not produce a Figure — the Figure Builder's
direct `df[x_col]` access raises a `KeyError` (modelled as `none`),
contradicting the claim that the missing reference is silently replaced
and a Figure is still produced. -/
theorem C2_counterexample_builder_raises_on_missing_column :
    dfFallback.cols.length = 1 ∧
    dfFallback.lookup "b" = none ∧
    build_3d_figure dfFallback "b" "a" "a" "a" = none :=
  ⟨by decide, by decide, by decide⟩

/-- C2 (amended): the Column Normalizer, asked for a column name absent
from a dataset with at least one column, silently substitutes the
dataset's first column and raises no error; the Figure Builder, however,
never calls the normalizer and indexes columns directly, so figure
construction with a missing column name raises instead of producing a
Figure. -/
theorem C2_normalizer_falls_back_but_builder_raises
    {df : DataFrame} {name : String} {c0 : Column} {rest : List Column}
    (hcols : df.cols = c0 :: rest) (hmiss : df.lookup name = none) :
    change_data_types_to_numeric df name = some (.raw c0.cells) ∧
    build_3d_figure df name name name name = none := by
  constructor
  · unfold change_data_types_to_numeric
    rw [hmiss, hcols]
    rfl
  · unfold build_3d_figure
    rw [hmiss]

/-- Witness for the amended C2 at a concrete one-column frame. -/
theorem C2_normalizer_falls_back_but_builder_raises_witness :
    dfFallback.cols = [⟨"a", .numeric, [some (.num 0)]⟩] ∧
    dfFallback.lookup "b" = none ∧
    (change_data_types_to_numeric dfFallback "b" =
        some (.raw [some (.num 0)]) ∧
      build_3d_figure dfFallback "b" "b" "b" "b" = none) :=
  ⟨by decide, by decide,
    @C2_normalizer_falls_back_but_builder_raises dfFallback "b"
      ⟨"a", .numeric, [some (.num 0)]⟩ [] (by decide) (by decide)⟩

/-- C3 counterexample: a datetime column with one missing entry
normalizes to a series containing the `NaN` sentinel — a missing value —
contradicting the claim that the output has no missing values for all
five column kinds. -/
theorem C3_counterexample_datetime_missing_gives_nan :
    (dfDatetime.lookup "t").map Column.kind = some .datetime ∧
    change_data_types_to_numeric dfDatetime "t" =
      some (.series [.val 3, .nan]) ∧
    NumVal.nan ∈ [NumVal.val 3, NumVal.nan] :=
  ⟨by decide, by decide, by decide⟩

/-- C3 (amended): for every existing column the normalizer returns a
numeric series whose length equals the column's row count; the series is
missing-value-free for numeric, boolean and text/categorical columns,
while datetime and duration columns may map missing inputs to the `NaN`
sentinel. -/
theorem C3_series_length_and_missing_freedom
    {df : DataFrame} {name : String} {c : Column}
    (h : df.lookup name = some c) :
    ∃ out, change_data_types_to_numeric df name = some (.series out) ∧
      out.length = c.cells.length ∧
      ((c.kind = .numeric ∨ c.kind = .boolean ∨ c.kind = .text) →
        NumVal.nan ∉ out) := by
  cases hk : c.kind with
  | numeric =>
    refine ⟨_, change_eq_of_numeric_or_bool h (Or.inl hk), ?_, ?_⟩
    · exact List.length_map _ _
    · intro _ hmem
      obtain ⟨v, _, hv⟩ := List.mem_map.mp hmem
      exact numeric_fill0_ne_nan v hv
  | boolean =>
    refine ⟨_, change_eq_of_numeric_or_bool h (Or.inr hk), ?_, ?_⟩
    · exact List.length_map _ _
    · intro _ hmem
      obtain ⟨v, _, hv⟩ := List.mem_map.mp hmem
      exact numeric_fill0_ne_nan v hv
  | text =>
    refine ⟨_, change_eq_of_text h hk, ?_, ?_⟩
    · unfold cat_codes fillna_unknown_str
      simp
    · intro _ hmem
      unfold cat_codes at hmem
      obtain ⟨s, _, hv⟩ := List.mem_map.mp hmem
      exact NumVal.noConfusion hv
  | datetime =>
    refine ⟨_, change_eq_of_datetime h hk, List.length_map _ _, ?_⟩
    rintro (hc | hc | hc) <;> exact ColKind.noConfusion hc
  | duration =>
    refine ⟨_, change_eq_of_duration h hk, List.length_map _ _, ?_⟩
    rintro (hc | hc | hc) <;> exact ColKind.noConfusion hc

/-- Witness for the amended C3 at a concrete numeric column. -/
theorem C3_series_length_and_missing_freedom_witness :
    dfFallback.lookup "a" = some ⟨"a", .numeric, [some (.num 0)]⟩ ∧
    (∃ out, change_data_types_to_numeric dfFallback "a" =
        some (.series out) ∧
      out.length = [some (RawVal.num 0)].length ∧
      ((ColKind.numeric = .numeric ∨ ColKind.numeric = .boolean ∨
          ColKind.numeric = .text) → NumVal.nan ∉ out)) :=
  ⟨by decide,
    @C3_series_length_and_missing_freedom dfFallback "a"
      ⟨"a", .numeric, [some (.num 0)]⟩ (by decide)⟩

/-- C4: a datetime column normalizes positionally — every present
timestamp (stored as integer nanoseconds) maps to its elapsed whole
seconds since the Unix epoch (floor division of nanoseconds by 10^9, as
the source's `// 10**9` computes), every missing timestamp maps to the
`NaN` sentinel, and the sentinel is distinct from every valid
elapsed-seconds number. -/
theorem C4_datetime_epoch_seconds_and_sentinel
    {df : DataFrame} {name : String} {c : Column} {out : List NumVal}
    (h : df.lookup name = some c) (hk : c.kind = .datetime)
    (ho : change_data_types_to_numeric df name = some (.series out)) :
    (∀ (i : Nat) (t : Int), c.cells[i]? = some (some (RawVal.dt t)) →
        out[i]? =
          some (NumVal.val ((Int.fdiv t ((10:Int) ^ 9) : Int) : Rat))) ∧
    (∀ (i : Nat), c.cells[i]? = some none → out[i]? = some NumVal.nan) ∧
    (∀ x : Rat, NumVal.nan ≠ NumVal.val x) := by
  rw [change_eq_of_datetime h hk] at ho
  have hout : out = c.cells.map dt_epoch_seconds := by
    have := Option.some.inj ho
    exact (NormResult.series.inj this).symm
  subst hout
  refine ⟨?_, ?_, ?_⟩
  · intro i t hit
    rw [List.getElem?_map, hit]
    rfl
  · intro i hit
    rw [List.getElem?_map, hit]
    rfl
  · intro x hx
    exact NumVal.noConfusion hx

/-- Witness for C4 at a concrete datetime column with one missing entry. -/
theorem C4_datetime_epoch_seconds_and_sentinel_witness :
    dfDatetime.lookup "t" =
      some ⟨"t", .datetime, [some (.dt (3 * 10 ^ 9)), none]⟩ ∧
    ColKind.datetime = ColKind.datetime ∧
    change_data_types_to_numeric dfDatetime "t" =
      some (.series [.val 3, .nan]) ∧
    ((∀ (i : Nat) (t : Int), [some (RawVal.dt (3 * 10 ^ 9)), none][i]? =
          some (some (RawVal.dt t)) →
        [NumVal.val 3, NumVal.nan][i]? =
          some (NumVal.val ((Int.fdiv t ((10:Int) ^ 9) : Int) : Rat))) ∧
      (∀ (i : Nat), [some (RawVal.dt (3 * 10 ^ 9)), none][i]? = some none →
        [NumVal.val 3, NumVal.nan][i]? = some NumVal.nan) ∧
      (∀ x : Rat, NumVal.nan ≠ NumVal.val x)) :=
  ⟨by decide, rfl, by decide,
    @C4_datetime_epoch_seconds_and_sentinel dfDatetime "t"
      ⟨"t", .datetime, [some (.dt (3 * 10 ^ 9)), none]⟩
      [.val 3, .nan] (by decide) (by decide) (by decide)⟩

/-- C5: text/categorical normalization first turns every missing value
into the category "Unknown" and then assigns each distinct category an
integer code: the output has one code per row, a missing row receives
exactly the code of the category "Unknown", two present rows receive
equal codes exactly when they hold the same string, and two calls of the
normalizer on the same column instance return identical results
(determinism as a two-run equality). -/
theorem C5_text_codes_unknown_fill_and_determinism
    {df : DataFrame} {name : String} {c : Column} {out : List NumVal}
    (h : df.lookup name = some c) (hk : c.kind = .text)
    (ho : change_data_types_to_numeric df name = some (.series out)) :
    change_data_types_to_numeric df name =
      change_data_types_to_numeric df name ∧
    out.length = c.cells.length ∧
    (∀ (i : Nat), c.cells[i]? = some none →
      out[i]? = some (NumVal.val
        (((cat_categories (fillna_unknown_str c.cells)).indexOf
            "Unknown" : Nat) : Rat))) ∧
    (∀ (i j : Nat) (s t : String),
      c.cells[i]? = some (some (RawVal.str s)) →
      c.cells[j]? = some (some (RawVal.str t)) →
      (out[i]? = out[j]? ↔ s = t)) := by
  rw [change_eq_of_text h hk] at ho
  have hout : out = cat_codes (fillna_unknown_str c.cells) :=
    (NormResult.series.inj (Option.some.inj ho)).symm
  subst hout
  refine ⟨rfl, ?_, ?_, ?_⟩
  · simp [cat_codes, fillna_unknown_str]
  · intro i hi
    have hfi : (fillna_unknown_str c.cells)[i]? = some "Unknown" := by
      unfold fillna_unknown_str
      rw [List.getElem?_map, hi]
      rfl
    simp only [cat_codes]
    rw [List.getElem?_map, hfi]
    rfl
  · intro i j s t hi hj
    have hfi : (fillna_unknown_str c.cells)[i]? = some s := by
      unfold fillna_unknown_str
      rw [List.getElem?_map, hi]
      rfl
    have hfj : (fillna_unknown_str c.cells)[j]? = some t := by
      unfold fillna_unknown_str
      rw [List.getElem?_map, hj]
      rfl
    have hs : s ∈ cat_categories (fillna_unknown_str c.cells) :=
      mem_cat_categories.mpr (List.getElem?_mem hfi)
    have ht : t ∈ cat_categories (fillna_unknown_str c.cells) :=
      mem_cat_categories.mpr (List.getElem?_mem hfj)
    simp only [cat_codes]
    rw [List.getElem?_map, List.getElem?_map, hfi, hfj]
    constructor
    · intro heq
      have h1 := NumVal.val.inj (Option.some.inj heq)
      have h2 : (cat_categories (fillna_unknown_str c.cells)).indexOf s =
          (cat_categories (fillna_unknown_str c.cells)).indexOf t :=
        Nat.cast_inj.mp h1
      exact (List.indexOf_inj hs ht).mp h2
    · intro hst
      rw [hst]

/-- Witness for C5 at a concrete text column with a missing entry and a
repeated category. -/
theorem C5_text_codes_unknown_fill_and_determinism_witness :
    dfMixed.lookup "c" =
      some ⟨"c", .text, [some (.str "A"), none, some (.str "A")]⟩ ∧
    ColKind.text = ColKind.text ∧
    change_data_types_to_numeric dfMixed "c" =
      some (.series [.val 0, .val 1, .val 0]) ∧
    (change_data_types_to_numeric dfMixed "c" =
        change_data_types_to_numeric dfMixed "c" ∧
      [NumVal.val 0, NumVal.val 1, NumVal.val 0].length =
        [some (RawVal.str "A"), none, some (RawVal.str "A")].length ∧
      (∀ (i : Nat),
        [some (RawVal.str "A"), none, some (RawVal.str "A")][i]? =
          some none →
        [NumVal.val 0, NumVal.val 1, NumVal.val 0][i]? =
          some (NumVal.val
            (((cat_categories (fillna_unknown_str
                [some (RawVal.str "A"), none, some (RawVal.str "A")])).indexOf
                "Unknown" : Nat) : Rat))) ∧
      (∀ (i j : Nat) (s t : String),
        [some (RawVal.str "A"), none, some (RawVal.str "A")][i]? =
          some (some (RawVal.str s)) →
        [some (RawVal.str "A"), none, some (RawVal.str "A")][j]? =
          some (some (RawVal.str t)) →
        ([NumVal.val 0, NumVal.val 1, NumVal.val 0][i]? =
            [NumVal.val 0, NumVal.val 1, NumVal.val 0][j]? ↔ s = t))) :=
  ⟨by decide, rfl, by decide,
    @C5_text_codes_unknown_fill_and_determinism dfMixed "c"
      ⟨"c", .text, [some (.str "A"), none, some (.str "A")]⟩
      [.val 0, .val 1, .val 0] (by decide) (by decide) (by decide)⟩

/-- C6 counterexample: the color column lists "B" before "A", so by the
claim's "first-seen category order" rule "B" would get the first palette
color "#636EFA"; the code instead orders categories lexicographically
("A" before "B"), so the trace named "B" gets the second palette color
"#EF553B". -/
theorem C6_counterexample_sorted_not_first_seen :
    (build_3d_figure dfBA "v" "v" "v" "c").map
        (fun f => f.traces.map (fun t => (t.name, t.color))) =
      some [("A", ColorSpec.discrete "#636EFA"),
            ("B", ColorSpec.discrete "#EF553B")] ∧
    first_seen_color (fillna_unknown_str
        [some (RawVal.str "B"), some (RawVal.str "A")]) "B" =
      some "#636EFA" ∧
    ColorSpec.discrete "#EF553B" ≠ ColorSpec.discrete "#636EFA" :=
  ⟨by decide, by decide, by decide⟩

/-- C6 (amended): for a text/categorical color column the builder emits
exactly one trace per distinct category (missing values first treated as
"Unknown"), with trace names listed in lexicographically sorted category
order (the order of the categorical factorization, not first-seen
order), each trace carrying the palette color of its sorted-order index
cycling through the 10-color palette, each trace a legend entry named by
its category, and the legend title equal to the color column's name. -/
theorem C6_discrete_structure_sorted_order_palette
    {df : DataFrame} {x_col y_col z_col color_col : String}
    {xc yc zc cc : Column} {fig : Figure}
    (h1 : df.lookup x_col = some xc) (h2 : df.lookup y_col = some yc)
    (h3 : df.lookup z_col = some zc) (h4 : df.lookup color_col = some cc)
    (hk : cc.kind = .text)
    (hb : build_3d_figure df x_col y_col z_col color_col = some fig) :
    fig.traces.map Trace.name =
      cat_categories (fillna_unknown_str cc.cells) ∧
    (∀ a, a ∈ fig.traces.map Trace.name ↔
      a ∈ fillna_unknown_str cc.cells) ∧
    (fig.traces.map Trace.name).Nodup ∧
    (∀ (j : Nat), j < fig.traces.length → ∃ t, fig.traces[j]? = some t ∧
      t.color = ColorSpec.discrete (palette.getD (j % palette.length) "") ∧
      t.showlegend = some true ∧
      t.name = (cat_categories (fillna_unknown_str cc.cells)).getD j "") ∧
    fig.legendTitle = some color_col ∧
    palette.length = 10 ∧ palette.Nodup := by
  rw [build_3d_figure_eq h1 h2 h3 h4] at hb
  have hfig := Option.some.inj hb
  subst hfig
  obtain ⟨cname, ckind, ccells⟩ := cc
  have hk' : ckind = .text := hk
  subst hk'
  rw [build_traces_text, build_legend_text]
  refine ⟨discrete_traces_map_name _ _ _ _ _ _ _ _, ?_, ?_, ?_, rfl,
    by decide, by decide⟩
  · intro a
    rw [discrete_traces_map_name]
    exact mem_cat_categories
  · rw [discrete_traces_map_name]
    exact cat_categories_nodup _
  · intro j hj
    have hlen := congrArg List.length
      (discrete_traces_map_name xc.cells yc.cells zc.cells
        (fillna_unknown_str ccells) (List.range df.nrows)
        (hover_template x_col y_col z_col color_col)
        (cat_categories (fillna_unknown_str ccells)) 0)
    rw [List.length_map] at hlen
    rw [hlen] at hj
    have hget := discrete_traces_getElem? xc.cells yc.cells zc.cells
      (fillna_unknown_str ccells) (List.range df.nrows)
      (hover_template x_col y_col z_col color_col)
      (cat_categories (fillna_unknown_str ccells)) 0 j hj
    rw [Nat.zero_add] at hget
    exact ⟨_, hget, rfl, rfl, rfl⟩

/-- Witness for the amended C6 at a concrete two-category frame. -/
theorem C6_discrete_structure_sorted_order_palette_witness :
    dfBA.lookup "c" =
      some ⟨"c", .text, [some (.str "B"), some (.str "A")]⟩ ∧
    ColKind.text = ColKind.text ∧
    build_3d_figure dfBA "v" "v" "v" "c" =
      some (figOf dfBA "v" "v" "v" "c") ∧
    ((figOf dfBA "v" "v" "v" "c").traces.map Trace.name =
        cat_categories (fillna_unknown_str
          [some (RawVal.str "B"), some (RawVal.str "A")]) ∧
      (∀ a, a ∈ (figOf dfBA "v" "v" "v" "c").traces.map Trace.name ↔
        a ∈ fillna_unknown_str
          [some (RawVal.str "B"), some (RawVal.str "A")]) ∧
      ((figOf dfBA "v" "v" "v" "c").traces.map Trace.name).Nodup ∧
      (∀ (j : Nat), j < (figOf dfBA "v" "v" "v" "c").traces.length →
        ∃ t, (figOf dfBA "v" "v" "v" "c").traces[j]? = some t ∧
        t.color =
          ColorSpec.discrete (palette.getD (j % palette.length) "") ∧
        t.showlegend = some true ∧
        t.name = (cat_categories (fillna_unknown_str
          [some (RawVal.str "B"), some (RawVal.str "A")])).getD j "") ∧
      (figOf dfBA "v" "v" "v" "c").legendTitle = some "c" ∧
      palette.length = 10 ∧ palette.Nodup) :=
  ⟨by decide, rfl, by decide,
    @C6_discrete_structure_sorted_order_palette dfBA "v" "v" "v" "c"
      ⟨"v", .numeric, [some (.num 1), some (.num 2)]⟩
      ⟨"v", .numeric, [some (.num 1), some (.num 2)]⟩
      ⟨"v", .numeric, [some (.num 1), some (.num 2)]⟩
      ⟨"c", .text, [some (.str "B"), some (.str "A")]⟩
      (figOf dfBA "v" "v" "v" "c")
      (by decide) (by decide) (by decide) (by decide) (by decide)
      (by decide)⟩

/-- C7 counterexample: a text color column holding the literal string
"Unknown" in row 0 and a missing value in row 1 produces a single
discrete trace whose two points display the same hover value "Unknown",
although the two rows' original cells differ — so the displayed hover
value of the missing row is not its original cell value and cannot be
round-tripped back to it. -/
theorem C7_counterexample_missing_cell_displays_unknown :
    (dfUnknown.lookup "c").map Column.cells =
      some [some (RawVal.str "Unknown"), none] ∧
    (build_3d_figure dfUnknown "v" "v" "v" "c").map
        (fun f => f.traces.map Trace.custom) =
      some [[(0, HoverVal.str "Unknown"), (1, HoverVal.str "Unknown")]] ∧
    some (RawVal.str "Unknown") ≠ (none : Option RawVal) :=
  ⟨by decide, by decide, by decide⟩

/-- C7 (amended): every point of every trace carries a hover record
pairing the row's original index with a display value; in continuous
mode the display value is exactly the row's original cell, and in
discrete mode it is the row's original string when the cell is present
and the substitute category "Unknown" when the cell is missing — never
the internal numeric category code or epoch-seconds form. -/
theorem C7_hover_displays_row_index_and_original_value
    {df : DataFrame} {x_col y_col z_col color_col : String}
    {xc yc zc cc : Column} {fig : Figure}
    (h1 : df.lookup x_col = some xc) (h2 : df.lookup y_col = some yc)
    (h3 : df.lookup z_col = some zc) (h4 : df.lookup color_col = some cc)
    (hb : build_3d_figure df x_col y_col z_col color_col = some fig) :
    ∀ t ∈ fig.traces, ∀ q ∈ t.custom,
      ∃ cell, cc.cells[q.1]? = some cell ∧
        (∀ cs cbt cv, t.color = ColorSpec.continuous cs cbt cv →
          q.2 = HoverVal.cell cell) ∧
        (∀ hx, t.color = ColorSpec.discrete hx →
          q.2 = HoverVal.str (fillna_unknown_elem cell)) := by
  rw [build_3d_figure_eq h1 h2 h3 h4] at hb
  have hfig := Option.some.inj hb
  subst hfig
  obtain ⟨cname, ckind, ccells⟩ := cc
  by_cases hk : ckind = .text
  · subst hk
    intro t ht q hq
    rw [build_traces_text] at ht
    obtain ⟨j, hj, rfl⟩ := mem_discrete_traces.mp ht
    simp only [mk_discrete_trace] at hq
    obtain ⟨i, hi, hqi⟩ := List.mem_map.mp hq
    have hi2 := (List.mem_filter.mp hi).2
    have hfill : (List.map fillna_unknown_elem ccells)[i]? =
        some ((cat_categories (fillna_unknown_str ccells)).getD j "") :=
      of_decide_eq_true hi2
    rw [List.getElem?_map] at hfill
    obtain ⟨cell, hcell, hfc⟩ := Option.map_eq_some'.mp hfill
    cases hqi
    refine ⟨cell, hcell, ?_, ?_⟩
    · intro cs cbt cv hc
      simp [mk_discrete_trace] at hc
    · intro hx hc
      rw [← hfc]
  · intro t ht q hq
    rw [build_figure_from_cont df.nrows xc yc zc cname ckind ccells
      x_col y_col z_col color_col hk] at ht
    have ht' := List.mem_singleton.mp ht
    subst ht'
    have hz := mem_zip_range hq
    rw [List.getElem?_map] at hz
    obtain ⟨cell, hcell, hfc⟩ := Option.map_eq_some'.mp hz
    refine ⟨cell, hcell, ?_, ?_⟩
    · intro cs cbt cv hc
      exact hfc.symm
    · intro hx hc
      exact ColorSpec.noConfusion hc

/-- Witness for the amended C7 at a concrete continuous-mode frame. -/
theorem C7_hover_displays_row_index_and_original_value_witness :
    dfFallback.lookup "a" = some ⟨"a", .numeric, [some (.num 0)]⟩ ∧
    build_3d_figure dfFallback "a" "a" "a" "a" =
      some (figOf dfFallback "a" "a" "a" "a") ∧
    (∀ t ∈ (figOf dfFallback "a" "a" "a" "a").traces, ∀ q ∈ t.custom,
      ∃ cell, [some (RawVal.num 0)][q.1]? = some cell ∧
        (∀ cs cbt cv, t.color = ColorSpec.continuous cs cbt cv →
          q.2 = HoverVal.cell cell) ∧
        (∀ hx, t.color = ColorSpec.discrete hx →
          q.2 = HoverVal.str (fillna_unknown_elem cell))) :=
  ⟨by decide, by decide,
    @C7_hover_displays_row_index_and_original_value dfFallback
      "a" "a" "a" "a"
      ⟨"a", .numeric, [some (.num 0)]⟩ ⟨"a", .numeric, [some (.num 0)]⟩
      ⟨"a", .numeric, [some (.num 0)]⟩ ⟨"a", .numeric, [some (.num 0)]⟩
      (figOf dfFallback "a" "a" "a" "a")
      (by decide) (by decide) (by decide) (by decide) (by decide)⟩

/-- C8 (code bug, evaluation at the failing input): on the text column
`["A", missing]` with the operator choosing "keep as text", the code
produces the string "nan" for the missing cell, not "Unknown" — the
source runs `astype(str)` first, which stringifies `NaN` to `"nan"`, so
its subsequent `fillna('Unknown')` finds no missing value and is dead
code.  The column's kind does remain categorical. -/
theorem C8_keep_as_text_missing_becomes_nan_not_unknown :
    change_ordinal_cols_by_terminal dfOrdinal
        (fun _ => OrdinalChoice.keepText) (fun _ => none) =
      ⟨[⟨"c", .text, [some (.str "A"), some (.str "nan")]⟩]⟩ ∧
    (change_ordinal_cols_by_terminal dfOrdinal
        (fun _ => OrdinalChoice.keepText) (fun _ => none)).cols.map
      Column.kind = [ColKind.text] ∧
    ("nan" : String) ≠ "Unknown" :=
  ⟨by decide, by decide, by decide⟩

/-- C9: on a dataset with zero rows whose Selection State names existing
columns, the Figure Builder returns a valid Figure and every trace of it
holds zero points (empty coordinates, rows and hover records); no error
is raised. -/
theorem C9_empty_dataset_builds_empty_figure
    {df : DataFrame} {x_col y_col z_col color_col : String}
    {xc yc zc cc : Column}
    (h1 : df.lookup x_col = some xc) (h2 : df.lookup y_col = some yc)
    (h3 : df.lookup z_col = some zc) (h4 : df.lookup color_col = some cc)
    (hempty : ∀ c ∈ df.cols, c.cells = []) :
    ∃ fig, build_3d_figure df x_col y_col z_col color_col = some fig ∧
      ∀ t ∈ fig.traces, t.x = [] ∧ t.y = [] ∧ t.z = [] ∧ t.rows = [] ∧
        t.custom = [] := by
  refine ⟨_, build_3d_figure_eq h1 h2 h3 h4, ?_⟩
  have hx := hempty xc (lookup_mem h1)
  have hy := hempty yc (lookup_mem h2)
  have hz := hempty zc (lookup_mem h3)
  have hcc := hempty cc (lookup_mem h4)
  have hn : df.nrows = 0 := by
    unfold DataFrame.nrows
    cases hcols : df.cols with
    | nil => rfl
    | cons c0 rest =>
      have h0 : c0.cells = [] :=
        hempty c0 (by rw [hcols]; exact List.mem_cons_self c0 rest)
      show c0.cells.length = 0
      rw [h0]
      rfl
  obtain ⟨cname, ckind, ccells⟩ := cc
  have hcc' : ccells = [] := hcc
  subst hcc'
  by_cases hk : ckind = .text
  · subst hk
    rw [build_traces_text]
    intro t ht
    rw [show cat_categories (fillna_unknown_str []) = [] from rfl] at ht
    simp only [discrete_traces] at ht
    exact absurd ht (List.not_mem_nil t)
  · rw [build_figure_from_cont df.nrows xc yc zc cname ckind []
      x_col y_col z_col color_col hk]
    intro t ht
    have ht' := List.mem_singleton.mp ht
    subst ht'
    refine ⟨hx, hy, hz, ?_, ?_⟩
    · rw [hn]
      rfl
    · rw [hn]
      rfl

/-- Witness for C9 at a concrete two-column frame with zero rows. -/
theorem C9_empty_dataset_builds_empty_figure_witness :
    dfEmpty.lookup "v" = some ⟨"v", .numeric, []⟩ ∧
    dfEmpty.lookup "c" = some ⟨"c", .text, []⟩ ∧
    (∀ c ∈ dfEmpty.cols, c.cells = []) ∧
    (∃ fig, build_3d_figure dfEmpty "v" "v" "v" "c" = some fig ∧
      ∀ t ∈ fig.traces, t.x = [] ∧ t.y = [] ∧ t.z = [] ∧ t.rows = [] ∧
        t.custom = []) :=
  ⟨by decide, by decide, by decide,
    @C9_empty_dataset_builds_empty_figure dfEmpty "v" "v" "v" "c"
      ⟨"v", .numeric, []⟩ ⟨"v", .numeric, []⟩ ⟨"v", .numeric, []⟩
      ⟨"c", .text, []⟩
      (by decide) (by decide) (by decide) (by decide) (by decide)⟩

/-- C10: in discrete color mode the traces partition the dataset's rows —
a row index belongs to a trace exactly when the trace is named by that
row's category (missing cells counting as "Unknown"), every row index
lies in some trace, trace names are pairwise distinct (so the row sets
are pairwise disjoint), and the point counts of all traces sum to the
row count. -/
theorem C10_discrete_traces_partition_rows
    {df : DataFrame} {x_col y_col z_col color_col : String}
    {xc yc zc cc : Column} {fig : Figure}
    (h1 : df.lookup x_col = some xc) (h2 : df.lookup y_col = some yc)
    (h3 : df.lookup z_col = some zc) (h4 : df.lookup color_col = some cc)
    (hk : cc.kind = .text) (hu : df.Uniform)
    (hb : build_3d_figure df x_col y_col z_col color_col = some fig) :
    (∀ (i : Nat), i < cc.cells.length → ∀ t ∈ fig.traces,
      (i ∈ t.rows ↔ (fillna_unknown_str cc.cells)[i]? = some t.name)) ∧
    (∀ (i : Nat), i < cc.cells.length → ∃ t ∈ fig.traces, i ∈ t.rows) ∧
    (fig.traces.map Trace.name).Nodup ∧
    (fig.traces.map (fun t => t.rows.length)).sum = cc.cells.length := by
  have hnn : cc.cells.length = df.nrows := hu cc (lookup_mem h4)
  rw [build_3d_figure_eq h1 h2 h3 h4] at hb
  have hfig := Option.some.inj hb
  subst hfig
  obtain ⟨cname, ckind, ccells⟩ := cc
  have hk' : ckind = .text := hk
  subst hk'
  rw [build_traces_text]
  have hfl : (fillna_unknown_str ccells).length = ccells.length :=
    List.length_map _ _
  refine ⟨?_, ?_, ?_, ?_⟩
  · intro i hi t ht
    obtain ⟨j, hj, rfl⟩ := mem_discrete_traces.mp ht
    simp only [mk_discrete_trace]
    rw [List.mem_filter, List.mem_range]
    constructor
    · rintro ⟨_, hdec⟩
      exact of_decide_eq_true hdec
    · intro hfi
      exact ⟨by omega, decide_eq_true hfi⟩
  · intro i hi
    have hif : i < (fillna_unknown_str ccells).length := by
      rw [hfl]; exact hi
    have hv : (fillna_unknown_str ccells)[i]? =
        some ((fillna_unknown_str ccells).get ⟨i, hif⟩) := by
      rw [List.getElem?_eq_getElem hif]
      rfl
    have hmem : (fillna_unknown_str ccells).get ⟨i, hif⟩ ∈
        cat_categories (fillna_unknown_str ccells) :=
      mem_cat_categories.mpr (List.get_mem _ _ _)
    have hmm : (fillna_unknown_str ccells).get ⟨i, hif⟩ ∈
        (discrete_traces xc.cells yc.cells zc.cells
          (fillna_unknown_str ccells) (List.range df.nrows)
          (hover_template x_col y_col z_col color_col)
          (cat_categories (fillna_unknown_str ccells)) 0).map
            Trace.name := by
      rw [discrete_traces_map_name]
      exact hmem
    obtain ⟨t, ht, hname⟩ := List.mem_map.mp hmm
    refine ⟨t, ht, ?_⟩
    obtain ⟨j, hj, rfl⟩ := mem_discrete_traces.mp ht
    simp only [mk_discrete_trace] at hname ⊢
    rw [List.mem_filter, List.mem_range]
    refine ⟨by omega, decide_eq_true ?_⟩
    rw [hname]
    exact hv
  · rw [discrete_traces_map_name]
    exact cat_categories_nodup _
  · rw [discrete_traces_sum_rows]
    rw [← hnn, ← hfl]
    have hfun : (fun cat =>
        ((List.range (fillna_unknown_str ccells).length).filter
          (fun i => decide ((fillna_unknown_str ccells)[i]? = some cat))).length) =
        (fun cat => (fillna_unknown_str ccells).count cat) :=
      funext (length_filter_range (fillna_unknown_str ccells))
    rw [hfun]
    have hperm : List.Perm (cat_categories (fillna_unknown_str ccells))
        (fillna_unknown_str ccells).dedup := sortStrings_perm _
    rw [(hperm.map (fun cat => (fillna_unknown_str ccells).count cat)).sum_eq,
      sum_dedup_count]

/-- Witness for C10 at a concrete three-row frame with categories
"A", missing, "A". -/
theorem C10_discrete_traces_partition_rows_witness :
    dfMixed.lookup "c" =
      some ⟨"c", .text, [some (.str "A"), none, some (.str "A")]⟩ ∧
    ColKind.text = ColKind.text ∧
    dfMixed.Uniform ∧
    build_3d_figure dfMixed "v" "v" "v" "c" =
      some (figOf dfMixed "v" "v" "v" "c") ∧
    ((∀ (i : Nat),
        i < [some (RawVal.str "A"), none, some (RawVal.str "A")].length →
        ∀ t ∈ (figOf dfMixed "v" "v" "v" "c").traces,
        (i ∈ t.rows ↔ (fillna_unknown_str
          [some (RawVal.str "A"), none, some (RawVal.str "A")])[i]? =
            some t.name)) ∧
      (∀ (i : Nat),
        i < [some (RawVal.str "A"), none, some (RawVal.str "A")].length →
        ∃ t ∈ (figOf dfMixed "v" "v" "v" "c").traces, i ∈ t.rows) ∧
      ((figOf dfMixed "v" "v" "v" "c").traces.map Trace.name).Nodup ∧
      ((figOf dfMixed "v" "v" "v" "c").traces.map
          (fun t => t.rows.length)).sum =
        [some (RawVal.str "A"), none, some (RawVal.str "A")].length) :=
  ⟨by decide, rfl, by decide, by decide,
    @C10_discrete_traces_partition_rows dfMixed "v" "v" "v" "c"
      ⟨"v", .numeric, [some (.num 1), some (.num 2), some (.num 3)]⟩
      ⟨"v", .numeric, [some (.num 1), some (.num 2), some (.num 3)]⟩
      ⟨"v", .numeric, [some (.num 1), some (.num 2), some (.num 3)]⟩
      ⟨"c", .text, [some (.str "A"), none, some (.str "A")]⟩
      (figOf dfMixed "v" "v" "v" "c")
      (by decide) (by decide) (by decide) (by decide) (by decide)
      (by decide) (by decide)⟩

end ExcelTo3D
